import Mathlib

/-!
Verification of the uci-shallow-red session controller.

The development shallowly embeds the two source files of the repository:

* src/timecontrol.rs — the time allocator thinking_time.
* src/main.rs — the command dispatcher parse_input, the position loader
  load_position, and the mutable session state of main.

Durations are modelled as natural numbers of nanoseconds (Duration in the
source stores seconds plus nanoseconds; dividing a Duration by a u32 is
floor division of the total nanosecond count).  The u8 arithmetic of the
source (the subtraction 45 - moves_played and the increment
moves_played += 1) is modelled with the wrapping modulo-256 semantics of a
release build; where a debug build would instead stop with an overflow
panic this is noted at the relevant theorem.
-/

namespace ShallowRed

/-- Nanoseconds in one second: Duration.from_secs 1 as a nanosecond count. -/
def NANOS_PER_SEC : Nat := 1000000000

/-- Wrapping u8 subtraction, the release-build semantics of a - b on u8. -/
def u8_sub (a b : Nat) : Nat := (a % 256 + 256 - b % 256) % 256

/-- Embedding of thinking_time (src/timecontrol.rs lines 3-10).
moves_played is the u8 argument (kept below 256 by callers), time_remaining
is a Duration in nanoseconds.  moves_left is
max (45 - moves_played) 10 with wrapping u8 subtraction; the result is
max (time_remaining / moves_left) (1 second). -/
def thinking_time (moves_played : Nat) (time_remaining : Nat) : Nat :=
  let game_moves_expected : Nat := 45
  let moves_left : Nat := max (u8_sub game_moves_expected moves_played) 10
  max (time_remaining / moves_left) NANOS_PER_SEC

/-- Follows the spec words, for comparison with thinking_time: the spec
says moves_left = max (45 - moves_played) 10 over unbounded non-negative
integers, so that every moves_played at or above 45 is clamped to 10. -/
def thinking_time_spec (moves_played : Nat) (time_remaining : Nat) : Nat :=
  max (time_remaining / (max (45 - moves_played) 10)) NANOS_PER_SEC

/-- On the u8 range that does not underflow, the wrapping subtraction
45 - m agrees with truncated natural subtraction. -/
theorem u8_sub_eq_of_le (m : Nat) (h : m ≤ 45) : u8_sub 45 m = 45 - m := by
  unfold u8_sub
  omega

/-- C1 counterexample: the claim says thinking_time is monotonically
non-increasing in moves_played at fixed remaining time, so it would demand
thinking_time 30 90s ≤ thinking_time 0 90s; in fact the budget grows from
2s to 6s as moves_played grows from 0 to 30. -/
theorem thinking_time_not_nonincreasing :
    (0 : Nat) ≤ 30 ∧
      thinking_time 0 (90 * NANOS_PER_SEC) < thinking_time 30 (90 * NANOS_PER_SEC) := by
  refine ⟨by decide, ?_⟩
  decide

/-- C1 amended: at fixed remaining time, thinking_time is monotonically
non-DEcreasing in moves_played on the domain moves_played ≤ 45 (beyond 45
the u8 subtraction wraps and the budget drops back to the 1 second floor,
see the C2 theorem). -/
theorem thinking_time_monotone_nondecreasing (t m1 m2 : Nat)
    (h12 : m1 ≤ m2) (h45 : m2 ≤ 45) :
    thinking_time m1 t ≤ thinking_time m2 t := by
  show max (t / max (u8_sub 45 m1) 10) NANOS_PER_SEC ≤
    max (t / max (u8_sub 45 m2) 10) NANOS_PER_SEC
  have e1 : u8_sub 45 m1 = 45 - m1 := u8_sub_eq_of_le m1 (le_trans h12 h45)
  have e2 : u8_sub 45 m2 = 45 - m2 := u8_sub_eq_of_le m2 h45
  rw [e1, e2]
  have hml : max (45 - m2) 10 ≤ max (45 - m1) 10 :=
    max_le_max (Nat.sub_le_sub_left h12 45) (le_refl 10)
  have hpos : 0 < max (45 - m2) 10 := by
    have : (10 : Nat) ≤ max (45 - m2) 10 := le_max_right _ _
    omega
  exact max_le_max (Nat.div_le_div_left hml hpos) (le_refl NANOS_PER_SEC)

/-- C1 witness for the amended monotonicity at a concrete input. -/
theorem thinking_time_monotone_nondecreasing_witness :
    thinking_time 0 (90 * NANOS_PER_SEC) ≤ thinking_time 30 (90 * NANOS_PER_SEC) :=
  thinking_time_monotone_nondecreasing (90 * NANOS_PER_SEC) 0 30
    (by decide) (by decide)

/-- C2: at moves_played = 46 the u8 subtraction 45 - 46 underflows.  In a
release build it wraps to 255, so moves_left is 255 rather than the
clamped 10 the spec describes, and with 100 seconds remaining the budget
collapses to the 1 second floor where the spec formula yields 10 seconds;
in a debug build the same input stops with a subtract-with-overflow panic
instead of being total.  Either way the claim that inputs at or above 45
are handled by the max(...,10) clamp is violated by the code. -/
theorem thinking_time_u8_underflow_at_46 :
    u8_sub 45 46 = 255 ∧
      thinking_time 46 (100 * NANOS_PER_SEC) = NANOS_PER_SEC ∧
      thinking_time_spec 46 (100 * NANOS_PER_SEC) = 10 * NANOS_PER_SEC := by
  refine ⟨by decide, by decide, by decide⟩

/-- C3: thinking_time never returns less than one second, and on the
spec's two concrete inputs it returns 1s for (5, 0s) and 2s for
(30, 30s). -/
theorem thinking_time_at_least_one_second :
    (∀ m t, NANOS_PER_SEC ≤ thinking_time m t) ∧
      thinking_time 5 0 = NANOS_PER_SEC ∧
      thinking_time 30 (30 * NANOS_PER_SEC) = 2 * NANOS_PER_SEC := by
  refine ⟨fun m t => le_max_right _ _, by decide, by decide⟩

/-!
Embedding of src/main.rs.

The chess crate and the shallow-red engine are external collaborators of
the repository, so board representation, move parsing and move application
are abstracted into a ChessApi record of operations; parse_input and
load_position are embedded over an arbitrary such api, exactly following
the source.  A Rust panic (out-of-bounds index, failed unwrap or expect)
is modelled by the value none of the surrounding Option.
-/

/-- Side to move, chess::Color. -/
inductive Color : Type
  | white : Color
  | black : Color
deriving DecidableEq

/-- Operations of the external rules engine (chess crate) used by main.rs:
Board::default, Board::side_to_move, ChessMove::from_str,
Board::make_move_new and Board::from_str.  The two parsing operations
return none where the crate returns an error value (which main.rs then
unwraps). -/
structure ChessApi (B M : Type) where
  board_default : B
  side_to_move : B → Color
  move_from_str : String → Option M
  make_move_new : B → M → B
  board_from_str : String → Option B

/-- One spawned engine invocation (the tokio task of the go arm): the
receiver end of its stop channel, the board snapshot it was given, and the
time limit computed by thinking_time.  Tasks are identified by the channel
id they hold. -/
structure SearchTask (B : Type) where
  chan : Nat
  snapshot : B
  timeLimit : Nat
deriving DecidableEq

/-- The mutable session state of main (src/main.rs lines 28-30): the
board, the u8 move counter and the optional stop-channel sender, here an
abstract channel id.  nextChan supplies fresh channel ids for
mpsc::channel and outstanding lists the spawned engine invocations that
have not yet finished. -/
structure Session (B : Type) where
  board : B
  movesPlayed : Nat
  stopChannel : Option Nat
  nextChan : Nat
  outstanding : List (SearchTask B)
deriving DecidableEq

/-- Initial session state of main: default board, zero moves played, no
stop channel. -/
def init_session {B M : Type} (api : ChessApi B M) : Session B :=
  { board := api.board_default, movesPlayed := 0, stopChannel := none,
    nextChan := 0, outstanding := [] }

/-- Character-list worker for the whitespace tokenizer. -/
def splitWsAux : List Char → List Char → List String
  | [], acc => if acc.isEmpty then [] else [String.mk acc.reverse]
  | c :: cs, acc =>
    if c.isWhitespace then
      if acc.isEmpty then splitWsAux cs []
      else String.mk acc.reverse :: splitWsAux cs []
    else splitWsAux cs (c :: acc)

/-- Embedding of str::split_whitespace().collect() (src/main.rs line 85):
the list of maximal non-whitespace runs of the line, in order, with no
empty tokens. -/
def splitWhitespace (s : String) : List String := splitWsAux s.data []

/-- Embedding of str::parse::<u64>: an optional leading plus sign, then at
least one ASCII digit, with the value required to fit in 64 bits. -/
def parseU64 (s : String) : Option Nat :=
  let chars : List Char :=
    match s.data with
    | [] => []
    | c :: rest => if c = '+' then rest else c :: rest
  if chars = [] then none
  else if chars.all (fun c => c.isDigit) then
    let n : Nat := chars.foldl (fun acc c => acc * 10 + (c.toNat - 48)) 0
    if n < 18446744073709551616 then some n else none
  else none

/-- Worker for load_position (src/main.rs lines 147-158): iterates the
tokens after the command word left to right; startpos resets the board to
the default position, moves is skipped, and any other token is parsed as
a move (none on failure, the expect panic) and applied with
make_move_new. -/
def load_position_aux {B M : Type} (api : ChessApi B M) :
    List String → B → Option B
  | [], board => some board
  | t :: rest, board =>
    if t = "startpos" then load_position_aux api rest api.board_default
    else if t = "moves" then load_position_aux api rest board
    else
      match api.move_from_str t with
      | none => none
      | some m => load_position_aux api rest (api.make_move_new board m)

/-- Embedding of load_position (src/main.rs lines 147-158): the source
iterates input[1..], skipping the leading command token. -/
def load_position {B M : Type} (api : ChessApi B M) (input : List String)
    (board : B) : Option B :=
  load_position_aux api (input.drop 1) board

/-- Embedding of parse_input (src/main.rs lines 77-145).  Arguments are
the input line, the following stdin line (consulted only by the
debuginternal arm, whose source reads one more line), and the session
state.  The result is none when the source panics (indexing an empty
token list, indexing a missing time token, a failed unwrap), and otherwise
the optional output line paired with the updated session.  The go arm
creates a fresh channel, stores its sender as the stop channel, spawns an
engine task with the board snapshot and the thinking_time budget, and
increments the u8 move counter with wrapping semantics. -/
def parse_input {B M : Type} (api : ChessApi B M) (uci_input : String)
    (next_line : String) (s : Session B) :
    Option (Option String × Session B) :=
  let parsed_input : List String := splitWhitespace uci_input
  match parsed_input.head? with
  | none => none
  | some cmd =>
    if cmd = "uci" then
      some (some "info name shallow-red 0.1\nuciok", { s with movesPlayed := 0 })
    else if cmd = "isready" then
      some (some "readyok", s)
    else if cmd = "ucinewgame" then
      some (none, { s with board := api.board_default, movesPlayed := 0 })
    else if cmd = "position" then
      match load_position api parsed_input s.board with
      | none => none
      | some b => some (none, { s with board := b })
    else if cmd = "go" then
      let timeTok : Option String :=
        match api.side_to_move s.board with
        | Color.white => parsed_input.get? 2
        | Color.black => parsed_input.get? 4
      match timeTok with
      | none => none
      | some tok =>
        match parseU64 tok with
        | none => none
        | some ms =>
          let time_remaining : Nat := ms * 1000000
          let tx : Nat := s.nextChan
          let task : SearchTask B :=
            { chan := tx, snapshot := s.board,
              timeLimit := thinking_time s.movesPlayed time_remaining }
          some (none, { s with stopChannel := some tx,
                               nextChan := tx + 1,
                               outstanding := task :: s.outstanding,
                               movesPlayed := (s.movesPlayed + 1) % 256 })
    else if cmd = "debuginternal" then
      match api.board_from_str next_line with
      | none => none
      | some b => some (none, { s with board := b })
    else if cmd = "stop" then
      some (none, s)
    else if cmd = "quit" then
      some (some "quit", s)
    else
      some (none, s)

/-- Completion of a spawned engine invocation: the task disappears from
the outstanding list.  The source installs no completion handler, so
nothing else in the session changes; in particular the stale sender stays
in stopChannel. -/
def searchComplete {B : Type} (c : Nat) (s : Session B) : Session B :=
  { s with outstanding := s.outstanding.filter (fun t => t.chan ≠ c) }

/-- An observable event of a session: one input line consumed by the
dispatcher (with the following stdin line, for debuginternal), or the
completion of an outstanding engine invocation. -/
inductive Event : Type
  | cmd : String → String → Event
  | finish : Nat → Event

/-- One step of the session under an event; none when the dispatcher
panics or when the completion event names no outstanding invocation. -/
def stepEv {B M : Type} (api : ChessApi B M) (s : Session B) :
    Event → Option (Session B)
  | Event.cmd line next_line => (parse_input api line next_line s).map Prod.snd
  | Event.finish c =>
      if s.outstanding.any (fun t => t.chan = c) then some (searchComplete c s)
      else none

/-- Runs a list of events from a state; the states reachable from
init_session are exactly the successful results of run. -/
def run {B M : Type} (api : ChessApi B M) : List Event → Session B → Option (Session B)
  | [], s => some s
  | e :: rest, s =>
    match stepEv api s e with
    | none => none
    | some s2 => run api rest s2

/-- A concrete instance of the external rules engine used for witnesses:
a board is the list of moves played on it, a move is any four-character
token, and loading a raw board state succeeds on any nonempty line. -/
def listApi : ChessApi (List String) String :=
  { board_default := []
    side_to_move := fun b => if b.length % 2 = 0 then Color.white else Color.black
    move_from_str := fun t => if t.length = 4 then some t else none
    make_move_new := fun b m => b ++ [m]
    board_from_str := fun t => if t = "" then none else some [t] }

/-- The go line used throughout the session theorems; both the white time
token (index 2) and the black time token (index 4) read 600000
milliseconds, as in the tests of src/main.rs. -/
def go_line : String := "go wtime 600000 btime 600000"

/-- C4 counterexample: the claim says a zero-token line is ignored with no
failure, no output and no state change, which in this embedding would read
parse_input api line nl s = some (none, s); on the empty line the source
indexes parsed_input[0] of an empty vector and panics, modelled by none. -/
theorem empty_line_fails_concrete :
    parse_input listApi "" "x" (init_session listApi) = none := by rfl

/-- C4 amended: an input line with zero whitespace tokens is not ignored;
parse_input fails on it (the source reads parsed_input[0] out of bounds),
leaving board, moves_played and stop_channel to the mercy of the ensuing
panic rather than unchanged-by-a-no-op. -/
theorem zero_token_line_fails {B M : Type} (api : ChessApi B M)
    (line next_line : String) (s : Session B)
    (h : splitWhitespace line = []) :
    parse_input api line next_line s = none := by
  simp [parse_input, h]

/-- C4 witness: the amended statement applied to the empty line. -/
theorem zero_token_line_fails_witness :
    parse_input listApi "" "y" (init_session listApi) = none :=
  zero_token_line_fails listApi "" "y" (init_session listApi) (by rfl)

/-- C5 counterexample: after a go command followed by the completion of
the spawned engine invocation, the session is idle (no outstanding
invocation) yet stopChannel still holds the stale sender of channel 0, so
the claimed invariant that the handle is Some only while an invocation is
outstanding is false on this reachable state. -/
theorem stale_stop_channel_after_completion :
    (run listApi [Event.cmd go_line "", Event.finish 0] (init_session listApi)).map
      (fun s => (s.stopChannel, s.outstanding.length)) = some (some 0, 0) := by rfl

/-- C5 amended: the completion of an invocation never clears stopChannel
(the source installs no completion handler, so the handle stays Some,
stale, while the session is idle); the handle is only ever replaced by the
next go command, which succeeds from every session state and installs a
fresh channel unconditionally, so a go issued after go-then-stop is never
rejected or corrupted. -/
theorem stop_channel_stale_until_next_go :
    (∀ (B : Type) (c : Nat) (s : Session B),
        (searchComplete c s).stopChannel = s.stopChannel) ∧
      (∀ (B M : Type) (api : ChessApi B M) (nl : String) (s : Session B),
        parse_input api go_line nl s =
          some (none, { s with stopChannel := some s.nextChan,
                               nextChan := s.nextChan + 1,
                               outstanding := ⟨s.nextChan, s.board,
                                 thinking_time s.movesPlayed 600000000000⟩ ::
                                   s.outstanding,
                               movesPlayed := (s.movesPlayed + 1) % 256 })) := by
  refine ⟨fun B c s => rfl, fun B M api nl s => ?_⟩
  rcases hc : api.side_to_move s.board <;>
    simp only [parse_input, go_line, hc] <;> rfl

/-- C6: in every session state, the uci command resets moves_played to 0,
changes nothing else, and returns exactly the identification line followed
by the uciok acknowledgment. -/
theorem uci_resets_and_identifies {B M : Type} (api : ChessApi B M)
    (nl : String) (s : Session B) :
    parse_input api "uci" nl s =
      some (some "info name shallow-red 0.1\nuciok",
        { s with movesPlayed := 0 }) := by rfl

/-- C7: load_position consumes its tokens left to right: startpos resets
the board to the default position, moves is skipped, any other token that
the rules engine resolves to a move is applied with make_move_new; and
through the dispatcher, the line position startpos moves e2e4 turns any
session's board into the single move e2e4 applied to the initial
position. -/
theorem load_position_left_to_right {B M : Type} (api : ChessApi B M)
    (nl : String) (s : Session B) (m : M)
    (h : api.move_from_str "e2e4" = some m) :
    (∀ (rest : List String) (b : B),
        load_position_aux api ("startpos" :: rest) b =
          load_position_aux api rest api.board_default) ∧
      (∀ (rest : List String) (b : B),
        load_position_aux api ("moves" :: rest) b = load_position_aux api rest b) ∧
      (∀ (t : String) (rest : List String) (b : B) (mt : M),
        t ≠ "startpos" → t ≠ "moves" → api.move_from_str t = some mt →
          load_position_aux api (t :: rest) b =
            load_position_aux api rest (api.make_move_new b mt)) ∧
      parse_input api "position startpos moves e2e4" nl s =
        some (none, { s with board := api.make_move_new api.board_default m }) := by
  refine ⟨fun rest b => rfl, fun rest b => rfl, ?_, ?_⟩
  · intro t rest b mt h1 h2 h3
    simp [load_position_aux, h1, h2, h3]
  · have he : load_position_aux api ["e2e4"] api.board_default =
        some (api.make_move_new api.board_default m) := by
      simp [load_position_aux, h]
    calc parse_input api "position startpos moves e2e4" nl s
        = (match load_position_aux api ["e2e4"] api.board_default with
            | none => none
            | some b => some (none, { s with board := b })) := by rfl
      _ = some (none, { s with board := api.make_move_new api.board_default m }) := by
            rw [he]

/-- C7 witness: the dispatcher line applied to the fresh session of the
concrete rules engine, where move e2e4 resolves to itself. -/
theorem load_position_left_to_right_witness :
    parse_input listApi "position startpos moves e2e4" "" (init_session listApi) =
      some (none, { init_session listApi with board := ["e2e4"] }) :=
  (load_position_left_to_right listApi "" (init_session listApi) "e2e4" (by rfl)).2.2.2

/-- C8: the stop command never fails, produces no output and leaves the
whole session state unchanged, in every session state: when stopChannel is
none the match arm does nothing, and when it is Some the source discards
the result of the send, so a send to an invocation that already finished
is equally a successful no-op. -/
theorem stop_is_noop {B M : Type} (api : ChessApi B M) (nl : String)
    (s : Session B) :
    parse_input api "stop" nl s = some (none, s) := by rfl

/-- C9: the debuginternal command replaces the board wholesale exactly
when the following stdin line parses as a board; when it does not parse,
the unwrap of the source panics (the step is none) instead of rejecting
the command and keeping the old board — witnessed concretely by the empty
raw-state line under the concrete rules engine. -/
theorem debuginternal_wholesale_or_fatal :
    (∀ (B M : Type) (api : ChessApi B M) (nl : String) (s : Session B),
        parse_input api "debuginternal" nl s =
          (api.board_from_str nl).map
            (fun b => ((none : Option String), { s with board := b }))) ∧
      parse_input listApi "debuginternal" "" (init_session listApi) = none := by
  refine ⟨fun B M api nl s => ?_, by rfl⟩
  rcases hb : api.board_from_str nl with _ | b <;>
    simp only [parse_input, hb, Option.map] <;> rfl

/-- C10: moves_played is a u8 and each go command increments it modulo
256 (the wrapping semantics of a release build): in every session state a
successful go leaves the counter at (old + 1) % 256, and concretely a go
issued with the counter at 255 wraps it to 0 rather than increasing it.
In a debug build the same 256th increment is an add-with-overflow panic
rather than a wrap; either way the counter is not unboundedly
monotonically increasing. -/
theorem go_increments_mod_256 :
    (∀ (B M : Type) (api : ChessApi B M) (nl : String) (s : Session B),
        (parse_input api go_line nl s).map (fun r => r.snd.movesPlayed) =
          some ((s.movesPlayed + 1) % 256)) ∧
      (parse_input listApi go_line ""
          { init_session listApi with movesPlayed := 255 }).map
        (fun r => r.snd.movesPlayed) = some 0 := by
  refine ⟨fun B M api nl s => ?_, by rfl⟩
  rcases hc : api.side_to_move s.board <;>
    simp only [parse_input, go_line, hc] <;> rfl

end ShallowRed
